import Mathlib

/-!
A shallow embedding of revaultd's daemon core (`src/daemon/revaultd.rs`):
the `VaultStatus` enumeration with its integer and string encodings, the
Noise identity-key bootstrap (`read_or_create_noise_key`), and the global
`RevaultD` state with its derivation-index and address accessors, together
with theorems about these definitions.

External dependencies (the `revault_tx` bitcoin/miniscript library, the
filesystem and the random generator) are modelled as explicit inputs: pure
library functions become function-valued parameters, and each fallible
I/O interaction is an `Except`-valued field of an environment record, so
every definition stays executable.
-/

/-- The status of a vault (`enum VaultStatus`, 15 variants in declaration
order). -/
inductive VaultStatus
  | Unconfirmed
  | Funded
  | Secured
  | Active
  | Unvaulting
  | Unvaulted
  | Canceling
  | Canceled
  | EmergencyVaulting
  | EmergencyVaulted
  | UnvaultEmergencyVaulting
  | UnvaultEmergencyVaulted
  | Spendable
  | Spending
  | Spent
deriving DecidableEq

/-- `impl TryFrom<u32> for VaultStatus`: the persisted integer code, `Err(())`
for anything outside `0..=14`. -/
def VaultStatus.tryFrom (n : Nat) : Except Unit VaultStatus :=
  if n = 0 then .ok .Unconfirmed
  else if n = 1 then .ok .Funded
  else if n = 2 then .ok .Secured
  else if n = 3 then .ok .Active
  else if n = 4 then .ok .Unvaulting
  else if n = 5 then .ok .Unvaulted
  else if n = 6 then .ok .Canceling
  else if n = 7 then .ok .Canceled
  else if n = 8 then .ok .EmergencyVaulting
  else if n = 9 then .ok .EmergencyVaulted
  else if n = 10 then .ok .UnvaultEmergencyVaulting
  else if n = 11 then .ok .UnvaultEmergencyVaulted
  else if n = 12 then .ok .Spendable
  else if n = 13 then .ok .Spending
  else if n = 14 then .ok .Spent
  else .error ()

/-- The integer code of a status, in declaration order (the inverse table of
`TryFrom<u32>`). -/
def VaultStatus.toCode : VaultStatus → Nat
  | .Unconfirmed => 0
  | .Funded => 1
  | .Secured => 2
  | .Active => 3
  | .Unvaulting => 4
  | .Unvaulted => 5
  | .Canceling => 6
  | .Canceled => 7
  | .EmergencyVaulting => 8
  | .EmergencyVaulted => 9
  | .UnvaultEmergencyVaulting => 10
  | .UnvaultEmergencyVaulted => 11
  | .Spendable => 12
  | .Spending => 13
  | .Spent => 14

/-- `impl fmt::Display for VaultStatus`: the canonical string form of each
status (note the source spells the unvault-emergency pair
"unvaultermergencyvault…", in both `Display` and `FromStr`). -/
def VaultStatus.toString : VaultStatus → String
  | .Unconfirmed => "unconfirmed"
  | .Funded => "funded"
  | .Secured => "secured"
  | .Active => "active"
  | .Unvaulting => "unvaulting"
  | .Unvaulted => "unvaulted"
  | .Canceling => "canceling"
  | .Canceled => "canceled"
  | .EmergencyVaulting => "emergencyvaulting"
  | .EmergencyVaulted => "emergencyvaulted"
  | .UnvaultEmergencyVaulting => "unvaultermergencyvaulting"
  | .UnvaultEmergencyVaulted => "unvaultermergencyvaulted"
  | .Spendable => "spendable"
  | .Spending => "spending"
  | .Spent => "spent"

/-- `impl FromStr for VaultStatus`: the string match, `Err(())` for any other
string. -/
def VaultStatus.fromStr (s : String) : Except Unit VaultStatus :=
  if s = "unconfirmed" then .ok .Unconfirmed
  else if s = "funded" then .ok .Funded
  else if s = "secured" then .ok .Secured
  else if s = "active" then .ok .Active
  else if s = "unvaulting" then .ok .Unvaulting
  else if s = "unvaulted" then .ok .Unvaulted
  else if s = "canceling" then .ok .Canceling
  else if s = "canceled" then .ok .Canceled
  else if s = "emergencyvaulting" then .ok .EmergencyVaulting
  else if s = "emergencyvaulted" then .ok .EmergencyVaulted
  else if s = "unvaultermergencyvaulting" then .ok .UnvaultEmergencyVaulting
  else if s = "unvaultermergencyvaulted" then .ok .UnvaultEmergencyVaulted
  else if s = "spendable" then .ok .Spendable
  else if s = "spending" then .ok .Spending
  else if s = "spent" then .ok .Spent
  else .error ()

/-- Claim C1: for every one of the 15 `VaultStatus` values `s`, parsing the
canonical lowercase string form of `s` yields `s` back, and converting the
integer code of `s` (0–14, in declaration order) back through `TryFrom<u32>`
yields `s` back; both round-trips are lossless for all 15 statuses. -/
theorem vaultStatus_roundtrip (s : VaultStatus) :
    VaultStatus.fromStr (VaultStatus.toString s) = .ok s ∧
    VaultStatus.tryFrom (VaultStatus.toCode s) = .ok s := by
  cases s <;> exact ⟨rfl, rfl⟩

/-- Claim C2: every integer outside `0..=14` is rejected by `TryFrom<u32>`,
and every string that is not one of the 15 canonical status strings is
rejected by `FromStr`; parsing never coerces an unknown input to a default
status. -/
theorem vaultStatus_unknown_rejected (n : Nat) (s : String)
    (hn : 14 < n) (hs : ∀ v : VaultStatus, VaultStatus.toString v ≠ s) :
    VaultStatus.tryFrom n = .error () ∧ VaultStatus.fromStr s = .error () := by
  constructor
  · have h0 : n ≠ 0 := by omega
    have h1 : n ≠ 1 := by omega
    have h2 : n ≠ 2 := by omega
    have h3 : n ≠ 3 := by omega
    have h4 : n ≠ 4 := by omega
    have h5 : n ≠ 5 := by omega
    have h6 : n ≠ 6 := by omega
    have h7 : n ≠ 7 := by omega
    have h8 : n ≠ 8 := by omega
    have h9 : n ≠ 9 := by omega
    have h10 : n ≠ 10 := by omega
    have h11 : n ≠ 11 := by omega
    have h12 : n ≠ 12 := by omega
    have h13 : n ≠ 13 := by omega
    have h14 : n ≠ 14 := by omega
    simp [VaultStatus.tryFrom, h0, h1, h2, h3, h4, h5, h6, h7, h8, h9, h10,
      h11, h12, h13, h14]
  · have e0 : s ≠ "unconfirmed" := Ne.symm (hs .Unconfirmed)
    have e1 : s ≠ "funded" := Ne.symm (hs .Funded)
    have e2 : s ≠ "secured" := Ne.symm (hs .Secured)
    have e3 : s ≠ "active" := Ne.symm (hs .Active)
    have e4 : s ≠ "unvaulting" := Ne.symm (hs .Unvaulting)
    have e5 : s ≠ "unvaulted" := Ne.symm (hs .Unvaulted)
    have e6 : s ≠ "canceling" := Ne.symm (hs .Canceling)
    have e7 : s ≠ "canceled" := Ne.symm (hs .Canceled)
    have e8 : s ≠ "emergencyvaulting" := Ne.symm (hs .EmergencyVaulting)
    have e9 : s ≠ "emergencyvaulted" := Ne.symm (hs .EmergencyVaulted)
    have e10 : s ≠ "unvaultermergencyvaulting" :=
      Ne.symm (hs .UnvaultEmergencyVaulting)
    have e11 : s ≠ "unvaultermergencyvaulted" :=
      Ne.symm (hs .UnvaultEmergencyVaulted)
    have e12 : s ≠ "spendable" := Ne.symm (hs .Spendable)
    have e13 : s ≠ "spending" := Ne.symm (hs .Spending)
    have e14 : s ≠ "spent" := Ne.symm (hs .Spent)
    simp [VaultStatus.fromStr, e0, e1, e2, e3, e4, e5, e6, e7, e8, e9, e10,
      e11, e12, e13, e14]

/-- Witness for C2 at `n = 15`, `s = "bogus"`. -/
theorem vaultStatus_unknown_rejected_witness :
    VaultStatus.tryFrom 15 = .error () ∧
    VaultStatus.fromStr "bogus" = .error () :=
  vaultStatus_unknown_rejected 15 "bogus" (by decide)
    (by intro v; cases v <;> decide)

/-!
## BIP32 child numbers and the `RevaultD` wallet state

`ChildNumber` models the bitcoin library's `util::bip32::ChildNumber` as
used by this code: `From<u32>` maps values with bit 31 set to a hardened
child (clearing bit 31) and the rest to a normal child; `From<ChildNumber>`
maps back. Since every input here is a `u32` (reduced modulo `2^32`), the
bit tests are written arithmetically: for `n < 2^32`, `n & (1 << 31) != 0`
is `2^31 ≤ n` and `n ^ (1 << 31)` is `n - 2^31`, and for an index
`i < 2^31` produced by `From<u32>`, `i | (1 << 31)` is `i + 2^31`.
-/

/-- A BIP32 derivation step: a normal or a hardened child index. -/
inductive ChildNumber
  | normal (index : Nat)
  | hardened (index : Nat)
deriving DecidableEq

/-- `impl From<u32> for ChildNumber` (bitcoin library), on a `u32` input. -/
def ChildNumber.fromU32 (n : Nat) : ChildNumber :=
  if 2 ^ 31 ≤ n then .hardened (n - 2 ^ 31) else .normal n

/-- `impl From<ChildNumber> for u32` (bitcoin library). -/
def ChildNumber.toU32 : ChildNumber → Nat
  | .normal index => index
  | .hardened index => index + 2 ^ 31

theorem ChildNumber.toU32_fromU32 (n : Nat) :
    (ChildNumber.fromU32 n).toU32 = n := by
  unfold ChildNumber.fromU32
  split_ifs with h
  · simp only [ChildNumber.toU32]
    omega
  · simp only [ChildNumber.toU32]

/-- `bitcoind_config`: only the network matters to this core (it names the
datadir subdirectory and parameterizes address encoding). -/
structure BitcoindConfig where
  network : String
deriving DecidableEq

/-- `pub struct BlockchainTip` (height + block hash, the hash opaque). -/
structure BlockchainTip where
  height : Nat
  hash : Nat
deriving DecidableEq

/-- The pure functions of the external `revault_tx`/bitcoin libraries that
the wallet accessors call. Descriptors are opaque handles (`Nat`);
`depositDeriveAddr desc c net` stands for
`desc.derive(c).0.address(net, xpub_ctx)` (always succeeds: the descriptor
is a wsh), and `addrFromScript` for `Address::from_script(s, net)`. -/
structure Libs where
  depositDeriveAddr : Nat → ChildNumber → String → String
  unvaultDeriveAddr : Nat → ChildNumber → String → String
  addrFromScript : Nat → String → String

/-- `pub struct RevaultD`: the global daemon state. Opaque foreign values
(xpubs, descriptors, keys, scripts, socket addresses) are `Nat`; the
derivation-index map is an association list; `secp_ctx` carries no data. -/
structure RevaultD where
  bitcoind_config : BitcoindConfig
  tip : Option BlockchainTip
  our_stk_xpub : Option Nat
  our_man_xpub : Option Nat
  deposit_descriptor : Nat
  unvault_descriptor : Nat
  cpfp_descriptor : Nat
  emergency_address : Option String
  current_unused_index : ChildNumber
  lock_time : Nat
  unvault_csv : Nat
  managers_pubkeys : List Nat
  noise_secret : List Nat
  coordinator_host : Nat
  coordinator_noisekey : List Nat
  coordinator_poll_interval : Nat
  cosigs : Option (List (String × List Nat))
  derivation_index_map : List (Nat × ChildNumber)
  wallet_id : Option Nat
  data_dir : String
  daemon : Bool

/-- `pub fn gap_limit(&self) -> u32 { 100 }` -/
def RevaultD.gap_limit (_ : RevaultD) : Nat := 100

/-- `pub fn is_stakeholder(&self) -> bool` -/
def RevaultD.is_stakeholder (d : RevaultD) : Bool :=
  d.our_stk_xpub.isSome

/-- `pub fn is_manager(&self) -> bool` -/
def RevaultD.is_manager (d : RevaultD) : Bool :=
  d.our_man_xpub.isSome

/-- `pub fn vault_address(&self, child_number: ChildNumber) -> Address` -/
def RevaultD.vault_address (d : RevaultD) (L : Libs) (c : ChildNumber) :
    String :=
  L.depositDeriveAddr d.deposit_descriptor c d.bitcoind_config.network

/-- `pub fn unvault_address(&self, child_number: ChildNumber) -> Address` -/
def RevaultD.unvault_address (d : RevaultD) (L : Libs) (c : ChildNumber) :
    String :=
  L.unvaultDeriveAddr d.unvault_descriptor c d.bitcoind_config.network

/-- `let raw_index: u32 = self.current_unused_index.into();` -/
def RevaultD.rawIndex (d : RevaultD) : Nat :=
  d.current_unused_index.toU32

/-- The child number `ChildNumber::from(raw_index + self.gap_limit())`
computed by `last_deposit_address` and `last_unvault_address` (the `u32`
addition wraps modulo `2^32`). -/
def RevaultD.last_gap_child (d : RevaultD) : ChildNumber :=
  ChildNumber.fromU32 ((d.rawIndex + d.gap_limit) % 2 ^ 32)

/-- `pub fn deposit_address(&self) -> Address` -/
def RevaultD.deposit_address (d : RevaultD) (L : Libs) : String :=
  d.vault_address L d.current_unused_index

/-- `pub fn last_deposit_address(&self) -> Address` -/
def RevaultD.last_deposit_address (d : RevaultD) (L : Libs) : String :=
  d.vault_address L d.last_gap_child

/-- `pub fn last_unvault_address(&self) -> Address` -/
def RevaultD.last_unvault_address (d : RevaultD) (L : Libs) : String :=
  d.unvault_address L d.last_gap_child

/-- `pub fn all_deposit_addresses(&mut self) -> Vec<String>`: iterates the
keys of `derivation_index_map` and converts each script to an address. -/
def RevaultD.all_deposit_addresses (d : RevaultD) (L : Libs) : List String :=
  d.derivation_index_map.map
    (fun p => L.addrFromScript p.1 d.bitcoind_config.network)

/-- `pub fn all_unvault_addresses(&mut self) -> Vec<String>`: derives the
unvault address at each index of the range
`0..raw_index + self.gap_limit()` (right-exclusive). -/
def RevaultD.all_unvault_addresses (d : RevaultD) (L : Libs) : List String :=
  (List.range ((d.rawIndex + d.gap_limit) % 2 ^ 32)).map
    (fun i => d.unvault_address L (ChildNumber.fromU32 i))

/-- Concrete external library functions for evaluating the model. -/
def L0 : Libs :=
  { depositDeriveAddr := fun _ _ _ => "dep"
    unvaultDeriveAddr := fun _ _ _ => "unv"
    addrFromScript := fun _ _ => "scr" }

/-- A freshly bootstrapped wallet state: next unused index 0, empty
derivation-index map (this is exactly how `from_config` initializes the
mutable wallet fields). -/
def baseState : RevaultD :=
  { bitcoind_config := ⟨"regtest"⟩
    tip := none
    our_stk_xpub := some 1
    our_man_xpub := none
    deposit_descriptor := 0
    unvault_descriptor := 1
    cpfp_descriptor := 2
    emergency_address := some "emeraddr"
    current_unused_index := ChildNumber.normal 0
    lock_time := 0
    unvault_csv := 6
    managers_pubkeys := []
    noise_secret := List.replicate 32 1
    coordinator_host := 0
    coordinator_noisekey := List.replicate 32 2
    coordinator_poll_interval := 30
    cosigs := none
    derivation_index_map := []
    wallet_id := none
    data_dir := "datadir"
    daemon := true }

/-- `baseState` with the next unused index advanced to 5. -/
def baseState5 : RevaultD :=
  { baseState with current_unused_index := ChildNumber.normal 5 }

/-- `baseState` with the next unused index at `2^31 - 100`, so that
`raw_index + gap_limit()` reaches `2^31`. -/
def overflowState : RevaultD :=
  { baseState with current_unused_index := ChildNumber.normal (2 ^ 31 - 100) }

/-- Claim C3 (the code at the failing input): with
`current_unused_index = 2^31 - 100`, `last_deposit_address` and
`last_unvault_address` do not fail — they silently derive at the hardened
child number `ChildNumber::Hardened { index: 0 }` (the source's own FIXME
comment: "this should fail instead of creating a hardened index"). -/
theorem last_address_hardened_no_error (L : Libs) :
    overflowState.last_gap_child = ChildNumber.hardened 0 ∧
    overflowState.last_deposit_address L =
      L.depositDeriveAddr overflowState.deposit_descriptor
        (ChildNumber.hardened 0) "regtest" ∧
    overflowState.last_unvault_address L =
      L.unvaultDeriveAddr overflowState.unvault_descriptor
        (ChildNumber.hardened 0) "regtest" :=
  ⟨rfl, rfl, rfl⟩

/-- Claim C9: `gap_limit()` is 100; `last_deposit_address` /
`last_unvault_address` derive at child number `current_unused_index + 100`;
and raising the raw unused index by `k` shifts the derived child index by
exactly `k` (stated below the `u32` overflow bound). -/
theorem last_address_gap_relation (L : Libs) (d d' : RevaultD) (k : Nat)
    (hshift : d'.rawIndex = d.rawIndex + k)
    (hov : d.rawIndex + 100 + k < 2 ^ 32) :
    d.gap_limit = 100 ∧
    d.last_deposit_address L =
      d.vault_address L (ChildNumber.fromU32 (d.rawIndex + 100)) ∧
    d.last_unvault_address L =
      d.unvault_address L (ChildNumber.fromU32 (d.rawIndex + 100)) ∧
    d'.last_gap_child.toU32 = d.last_gap_child.toU32 + k := by
  have h1 : (d.rawIndex + d.gap_limit) % 2 ^ 32 = d.rawIndex + 100 := by
    unfold RevaultD.gap_limit
    exact Nat.mod_eq_of_lt (by omega)
  have h2 : (d'.rawIndex + d'.gap_limit) % 2 ^ 32 = d.rawIndex + k + 100 := by
    unfold RevaultD.gap_limit
    rw [hshift]
    exact Nat.mod_eq_of_lt (by omega)
  refine ⟨rfl, ?_, ?_, ?_⟩
  · unfold RevaultD.last_deposit_address RevaultD.last_gap_child
    rw [h1]
  · unfold RevaultD.last_unvault_address RevaultD.last_gap_child
    rw [h1]
  · unfold RevaultD.last_gap_child
    rw [h1, h2, ChildNumber.toU32_fromU32, ChildNumber.toU32_fromU32]
    omega

/-- Witness for C9: `baseState` (raw index 0) against `baseState5`
(raw index 5). -/
theorem last_address_gap_relation_witness :
    baseState.gap_limit = 100 ∧
    baseState.last_deposit_address L0 =
      baseState.vault_address L0 (ChildNumber.fromU32 (baseState.rawIndex + 100)) ∧
    baseState.last_unvault_address L0 =
      baseState.unvault_address L0 (ChildNumber.fromU32 (baseState.rawIndex + 100)) ∧
    baseState5.last_gap_child.toU32 = baseState.last_gap_child.toU32 + 5 :=
  last_address_gap_relation L0 baseState baseState5 5 (by decide) (by decide)

/-- Claim C4 counterexample: on the freshly bootstrapped state (empty
derivation-index map, next unused index 0), `all_deposit_addresses` returns
the empty list, while the addresses derived at every index of the range
claimed — `0` through `current_unused_index + gap_limit`, read exclusively
or inclusively — form a non-empty list. -/
theorem all_deposit_addresses_not_index_range :
    RevaultD.all_deposit_addresses baseState L0 = [] ∧
    (List.range (baseState.rawIndex + baseState.gap_limit)).map
      (fun i => baseState.vault_address L0 (ChildNumber.fromU32 i)) ≠ [] ∧
    (List.range (baseState.rawIndex + baseState.gap_limit + 1)).map
      (fun i => baseState.vault_address L0 (ChildNumber.fromU32 i)) ≠ [] := by
  refine ⟨rfl, ?_, ?_⟩ <;>
    · intro h
      have hl := congrArg List.length h
      simp [baseState, RevaultD.rawIndex, RevaultD.gap_limit,
        ChildNumber.toU32] at hl

/-- Claim C4 as amended: `all_unvault_addresses` returns exactly one address
per index of the right-exclusive range
`0..((current_unused_index + gap_limit) mod 2^32)` — the `u32` sum wraps on
overflow, and below overflow this is exactly the range
`0..current_unused_index + gap_limit` of unvault addresses derived at each
index — while `all_deposit_addresses` instead returns one address per entry
of the watched script-to-index map, converted from the stored script. -/
theorem all_addresses_characterization (L : Libs) (d : RevaultD) :
    (d.all_unvault_addresses L).length =
      (d.rawIndex + d.gap_limit) % 2 ^ 32 ∧
    (d.rawIndex + d.gap_limit < 2 ^ 32 →
      d.all_unvault_addresses L =
        (List.range (d.rawIndex + d.gap_limit)).map
          (fun i => d.unvault_address L (ChildNumber.fromU32 i))) ∧
    d.all_deposit_addresses L =
      d.derivation_index_map.map
        (fun p => L.addrFromScript p.1 d.bitcoind_config.network) ∧
    (d.all_deposit_addresses L).length = d.derivation_index_map.length := by
  refine ⟨?_, ?_, rfl, ?_⟩
  · unfold RevaultD.all_unvault_addresses
    simp
  · intro hov
    unfold RevaultD.all_unvault_addresses
    rw [Nat.mod_eq_of_lt hov]
  · unfold RevaultD.all_deposit_addresses
    simp

/-- Witness for the amended C4 at the concrete base state, the inner
no-overflow condition discharged there. -/
theorem all_addresses_characterization_witness :
    (baseState.all_unvault_addresses L0).length =
      (baseState.rawIndex + baseState.gap_limit) % 2 ^ 32 ∧
    baseState.all_unvault_addresses L0 =
      (List.range (baseState.rawIndex + baseState.gap_limit)).map
        (fun i => baseState.unvault_address L0 (ChildNumber.fromU32 i)) ∧
    baseState.all_deposit_addresses L0 =
      baseState.derivation_index_map.map
        (fun p => L0.addrFromScript p.1 baseState.bitcoind_config.network) ∧
    (baseState.all_deposit_addresses L0).length =
      baseState.derivation_index_map.length :=
  have h := all_addresses_characterization L0 baseState
  ⟨h.1, h.2.1 (by decide), h.2.2.1, h.2.2.2⟩

/-!
## Noise identity-key bootstrap (`read_or_create_noise_key`)

The filesystem is an explicit environment: whether the secret file exists,
the freshly generated key bytes, whether a file exists by the time the
exclusive-create `open` runs, the underlying I/O outcomes, and the bytes an
existing file holds. `read_exact` on a 32-byte buffer consumes the first
32 bytes of the file and fails with `UnexpectedEof` on a shorter one; the
final `assert!(noise_secret.0 != [0; 32])` is a `panic` outcome.
-/

/-- The I/O error kinds this code path can observe. -/
inductive IOErr
  | alreadyExists
  | unexpectedEof
  | other (code : Nat)
deriving DecidableEq

/-- `enum KeyError { ReadingKey(io::Error), WritingKey(io::Error),
InvalidKeySize }` -/
inductive KeyError
  | ReadingKey (e : IOErr)
  | WritingKey (e : IOErr)
  | InvalidKeySize
deriving DecidableEq

/-- Outcome of `read_or_create_noise_key`: a panic (failed `assert!`), an
`Err(KeyError)`, or `Ok` with the 32 raw key bytes. -/
inductive KeyResult
  | panicked
  | err (e : KeyError)
  | ok (key : List Nat)
deriving DecidableEq

/-- The `fs::OpenOptions` the write path builds:
`write(true).create_new(true)` and, on unix, `mode(0o400)`. -/
structure OpenOptions where
  write : Bool
  create_new : Bool
  mode : Nat
deriving DecidableEq

/-- The options used for creating the secret file. -/
def noiseKeyOpenOptions : OpenOptions :=
  { write := true, create_new := true, mode := 0o400 }

/-- The filesystem/randomness environment of one
`read_or_create_noise_key` run. -/
structure NoiseKeyEnv where
  /-- `secret_file.as_path().exists()` -/
  fileExists : Bool
  /-- the fresh key from `sodiumoxide::crypto::box_::gen_keypair().1` -/
  genKey : List Nat
  /-- whether a file exists at the path when the exclusive-create `open`
  actually runs (it may have appeared since the `exists()` check) -/
  existsAtOpen : Bool
  /-- outcome of `options.open(secret_file)` apart from the
  already-exists case -/
  createIo : Except IOErr Unit
  /-- outcome of `fd.write_all(&noise_secret.as_ref())` -/
  writeIo : Except IOErr Unit
  /-- outcome of `fs::File::open(secret_file)`, with the file's bytes -/
  openRead : Except IOErr (List Nat)

/-- Semantics of `open` with `create_new(true)`: fails with
`AlreadyExists` when a file is present at open time, else the underlying
I/O outcome. -/
def openExclusive (opts : OpenOptions) (existsAtOpen : Bool)
    (io : Except IOErr Unit) : Except IOErr Unit :=
  if opts.create_new && existsAtOpen then .error .alreadyExists else io

/-- The all-zero buffer `[0; 32]` the key is compared against. -/
def zero32 : List Nat := List.replicate 32 0

/-- `read_exact` into a 32-byte buffer: the first 32 bytes of the file, or
`UnexpectedEof` if it holds fewer. -/
def readExact32 (content : List Nat) : Except IOErr (List Nat) :=
  if 32 ≤ content.length then .ok (content.take 32)
  else .error .unexpectedEof

/-- The body of `read_or_create_noise_key` up to (not including) the final
`assert!`: generate-and-write when no file exists, open-and-read
otherwise. -/
def noiseKeyBody (env : NoiseKeyEnv) : Except KeyError (List Nat) :=
  if !env.fileExists then
    match openExclusive noiseKeyOpenOptions env.existsAtOpen env.createIo with
    | .error e => .error (.WritingKey e)
    | .ok _ =>
      match env.writeIo with
      | .error e => .error (.WritingKey e)
      | .ok _ => .ok env.genKey
  else
    match env.openRead with
    | .error e => .error (.ReadingKey e)
    | .ok content =>
      match readExact32 content with
      | .error e => .error (.ReadingKey e)
      | .ok k => .ok k

/-- `fn read_or_create_noise_key(secret_file: PathBuf) ->
Result<NoisePrivKey, KeyError>`, with the trailing
`assert!(noise_secret.0 != [0; 32])` modelled as the `panicked` outcome. -/
def read_or_create_noise_key (env : NoiseKeyEnv) : KeyResult :=
  match noiseKeyBody env with
  | .error e => .err e
  | .ok k => if k = zero32 then .panicked else .ok k

/-- Claim C6 counterexample: with an existing but empty secret file, the
read fails with `KeyError::ReadingKey(UnexpectedEof)` — not
`KeyError::InvalidKeySize` as claimed (that variant is never produced on
this path). -/
theorem noise_key_short_read_not_invalidKeySize :
    read_or_create_noise_key
      { fileExists := true
        genKey := List.replicate 32 3
        existsAtOpen := true
        createIo := .ok ()
        writeIo := .ok ()
        openRead := .ok [] } = .err (.ReadingKey .unexpectedEof) ∧
    KeyError.ReadingKey .unexpectedEof ≠ KeyError.InvalidKeySize := by
  exact ⟨rfl, by decide⟩

/-- Claim C6 as amended: when the secret file exists, the code reads the
first 32 bytes of it; every failure of this read path is reported as
`KeyError::ReadingKey` (never `InvalidKeySize`) — a failure to open the
file carries that open error, and a file holding fewer than 32 bytes fails
`read_exact` with `UnexpectedEof` — while a file holding at least 32 bytes
yields its first 32 bytes, except that all-zero bytes trip the trailing
`assert!` (a panic) instead of succeeding. -/
theorem noise_key_read_path (env : NoiseKeyEnv)
    (hex : env.fileExists = true) :
    (∀ e, read_or_create_noise_key env = .err e →
      ∃ io, e = KeyError.ReadingKey io) ∧
    (∀ io, env.openRead = .error io →
      read_or_create_noise_key env = .err (.ReadingKey io)) ∧
    (∀ content, env.openRead = .ok content → content.length < 32 →
      read_or_create_noise_key env = .err (.ReadingKey .unexpectedEof)) ∧
    (∀ content, env.openRead = .ok content → 32 ≤ content.length →
      read_or_create_noise_key env =
        if content.take 32 = zero32 then .panicked
        else .ok (content.take 32)) := by
  have hbody : noiseKeyBody env =
      match env.openRead with
      | .error e => .error (.ReadingKey e)
      | .ok content =>
        match readExact32 content with
        | .error e => .error (.ReadingKey e)
        | .ok k => .ok k := by
    unfold noiseKeyBody
    rw [hex]
    rfl
  have hopen : ∀ io, env.openRead = .error io →
      read_or_create_noise_key env = .err (.ReadingKey io) := by
    intro io hio
    have hb : noiseKeyBody env = .error (.ReadingKey io) := by
      rw [hbody, hio]
    unfold read_or_create_noise_key
    rw [hb]
  have hshort : ∀ content, env.openRead = .ok content → content.length < 32 →
      read_or_create_noise_key env = .err (.ReadingKey .unexpectedEof) := by
    intro content hc hlt
    have hb : noiseKeyBody env = .error (.ReadingKey .unexpectedEof) := by
      rw [hbody, hc]
      show (match readExact32 content with
        | .error e => Except.error (KeyError.ReadingKey e)
        | .ok k => Except.ok k) = _
      unfold readExact32
      rw [if_neg (by omega)]
    unfold read_or_create_noise_key
    rw [hb]
  have hlong : ∀ content, env.openRead = .ok content → 32 ≤ content.length →
      read_or_create_noise_key env =
        if content.take 32 = zero32 then .panicked
        else .ok (content.take 32) := by
    intro content hc hge
    have hb : noiseKeyBody env = .ok (content.take 32) := by
      rw [hbody, hc]
      show (match readExact32 content with
        | .error e => Except.error (KeyError.ReadingKey e)
        | .ok k => Except.ok k) = _
      unfold readExact32
      rw [if_pos hge]
    unfold read_or_create_noise_key
    rw [hb]
  refine ⟨?_, hopen, hshort, hlong⟩
  intro e he
  cases ho : env.openRead with
  | error io =>
    rw [hopen io ho] at he
    injection he with h
    exact ⟨io, h.symm⟩
  | ok content =>
    by_cases hlen : 32 ≤ content.length
    · rw [hlong content ho hlen] at he
      by_cases hz : content.take 32 = zero32
      · rw [if_pos hz] at he
        exact KeyResult.noConfusion he
      · rw [if_neg hz] at he
        exact KeyResult.noConfusion he
    · rw [hshort content ho (by omega)] at he
      injection he with h
      exact ⟨.unexpectedEof, h.symm⟩

/-- The environment of a run that finds an existing 40-byte secret file of
ones. -/
def longFileEnv : NoiseKeyEnv :=
  { fileExists := true
    genKey := List.replicate 32 3
    existsAtOpen := true
    createIo := .ok ()
    writeIo := .ok ()
    openRead := .ok (List.replicate 40 1) }

/-- Witness for the amended C6 on the 40-byte-file environment. -/
theorem noise_key_read_path_witness :
    (∀ e, read_or_create_noise_key longFileEnv = .err e →
      ∃ io, e = KeyError.ReadingKey io) ∧
    (∀ io, longFileEnv.openRead = .error io →
      read_or_create_noise_key longFileEnv = .err (.ReadingKey io)) ∧
    (∀ content, longFileEnv.openRead = .ok content → content.length < 32 →
      read_or_create_noise_key longFileEnv =
        .err (.ReadingKey .unexpectedEof)) ∧
    (∀ content, longFileEnv.openRead = .ok content → 32 ≤ content.length →
      read_or_create_noise_key longFileEnv =
        if content.take 32 = zero32 then .panicked
        else .ok (content.take 32)) :=
  noise_key_read_path longFileEnv rfl

/-- Claim C7: `read_or_create_noise_key` never returns `Ok` with the
all-zero 32-byte key — the trailing `assert!` turns that case into a
panic, so every successful return carries a key different from
`[0; 32]`. -/
theorem noise_key_never_zero (env : NoiseKeyEnv) (k : List Nat)
    (h : read_or_create_noise_key env = .ok k) : k ≠ zero32 := by
  unfold read_or_create_noise_key at h
  cases hb : noiseKeyBody env with
  | error e =>
    rw [hb] at h
    exact KeyResult.noConfusion h
  | ok k' =>
    rw [hb] at h
    have h' : (if k' = zero32 then KeyResult.panicked
        else KeyResult.ok k') = .ok k := h
    by_cases hz : k' = zero32
    · rw [if_pos hz] at h'
      exact KeyResult.noConfusion h'
    · rw [if_neg hz] at h'
      injection h' with hk
      rwa [hk] at hz

/-- The environment of a first run that loses the creation race: no file at
the `exists()` check, but one present by the time the exclusive-create
`open` runs. -/
def raceEnv : NoiseKeyEnv :=
  { fileExists := false
    genKey := List.replicate 32 7
    existsAtOpen := true
    createIo := .ok ()
    writeIo := .ok ()
    openRead := .ok (List.replicate 32 1) }

/-- Claim C8: when no secret file exists, the write path opens with
`write(true).create_new(true)` and owner-only read mode `0o400`; any
successful return hands back exactly the freshly generated key; and if a
file nevertheless exists at open time, the call fails with
`KeyError::WritingKey(AlreadyExists)` instead of overwriting it. -/
theorem noise_key_create_exclusive (env : NoiseKeyEnv)
    (hnf : env.fileExists = false) :
    noiseKeyOpenOptions.write = true ∧
    noiseKeyOpenOptions.create_new = true ∧
    noiseKeyOpenOptions.mode = 0o400 ∧
    (env.existsAtOpen = true →
      read_or_create_noise_key env = .err (.WritingKey .alreadyExists)) ∧
    (∀ k, read_or_create_noise_key env = .ok k → k = env.genKey) := by
  have hbody : noiseKeyBody env =
      match openExclusive noiseKeyOpenOptions env.existsAtOpen env.createIo with
      | .error e => .error (.WritingKey e)
      | .ok _ =>
        match env.writeIo with
        | .error e => .error (.WritingKey e)
        | .ok _ => .ok env.genKey := by
    unfold noiseKeyBody
    rw [hnf]
    rfl
  refine ⟨rfl, rfl, rfl, ?_, ?_⟩
  · intro hex
    have hoe : openExclusive noiseKeyOpenOptions env.existsAtOpen env.createIo =
        .error .alreadyExists := by
      unfold openExclusive
      rw [hex]
      rfl
    have hb : noiseKeyBody env = .error (.WritingKey .alreadyExists) := by
      rw [hbody, hoe]
    unfold read_or_create_noise_key
    rw [hb]
  · intro k hk
    unfold read_or_create_noise_key at hk
    rw [hbody] at hk
    cases hoe : openExclusive noiseKeyOpenOptions env.existsAtOpen
        env.createIo with
    | error e =>
      rw [hoe] at hk
      exact KeyResult.noConfusion hk
    | ok _ =>
      rw [hoe] at hk
      cases hw : env.writeIo with
      | error e =>
        rw [hw] at hk
        exact KeyResult.noConfusion hk
      | ok _ =>
        rw [hw] at hk
        have hk' : (if env.genKey = zero32 then KeyResult.panicked
            else KeyResult.ok env.genKey) = .ok k := hk
        by_cases hz : env.genKey = zero32
        · rw [if_pos hz] at hk'
          exact KeyResult.noConfusion hk'
        · rw [if_neg hz] at hk'
          injection hk' with h
          exact h.symm

/-- Witness for C8 on the racing environment. -/
theorem noise_key_create_exclusive_witness :
    noiseKeyOpenOptions.write = true ∧
    noiseKeyOpenOptions.create_new = true ∧
    noiseKeyOpenOptions.mode = 0o400 ∧
    (raceEnv.existsAtOpen = true →
      read_or_create_noise_key raceEnv = .err (.WritingKey .alreadyExists)) ∧
    (∀ k, read_or_create_noise_key raceEnv = .ok k → k = raceEnv.genKey) :=
  noise_key_create_exclusive raceEnv rfl

/-- Witness for C7: a run that reads an existing 32-byte non-zero key
returns it, and the theorem yields that it differs from `[0; 32]`. -/
theorem noise_key_never_zero_witness :
    (List.replicate 32 1 : List Nat) ≠ zero32 :=
  noise_key_never_zero
    { fileExists := true
      genKey := List.replicate 32 7
      existsAtOpen := true
      createIo := .ok ()
      writeIo := .ok ()
      openRead := .ok (List.replicate 32 1) }
    (List.replicate 32 1) rfl

/-!
## `RevaultD::from_config`

The consumed `Config` carries the fields this code reads; opaque foreign
values (xpubs, descriptor public keys, noise keys, parsed socket
addresses) are `Nat` or byte lists. The external calls `from_config`
makes — descriptor construction in `revault_tx`, `config_folder_path()`,
data-directory existence/creation, `fs::canonicalize`, the noise-key
bootstrap and `SocketAddr::from_str` — are supplied as the outcome fields
of a `ConfigEnv`, consumed in the source's order. The `assert!` that at
least one role xpub is configured is the `panicked` outcome.
-/

/-- `stakeholder_config`: the role xpub and the supplied emergency
address. -/
structure StakeholderConfig where
  xpub : Nat
  emergency_address : String
deriving DecidableEq

/-- One cosigner entry of the manager config: host and noise key. -/
structure CosignerConfig where
  host : String
  noise_key : List Nat
deriving DecidableEq

/-- `manager_config`: the role xpub and the cosigner list. -/
structure ManagerConfig where
  xpub : Nat
  cosigners : List CosignerConfig
deriving DecidableEq

/-- The configuration fields `from_config` consumes. -/
structure Config where
  manager_config : Option ManagerConfig
  stakeholder_config : Option StakeholderConfig
  managers_xpubs : List Nat
  stakeholders_xpubs : List Nat
  cosigners_keys : List Nat
  unvault_csv : Nat
  data_dir : Option String
  bitcoind_config : BitcoindConfig
  coordinator_host : String
  coordinator_noise_key : List Nat
  coordinator_poll_seconds : Nat
  daemon : Option Bool
deriving DecidableEq

/-- Outcomes of the external calls made during `from_config`, in call
order. -/
structure ConfigEnv where
  /-- `deposit_descriptor(stakeholders_pubkeys)?` -/
  depositDescRes : Except String Nat
  /-- `unvault_descriptor(stk, man, man.len(), cosigners, csv)?` -/
  unvaultDescRes : Except String Nat
  /-- `cpfp_descriptor(managers_pubkeys)?` -/
  cpfpDescRes : Except String Nat
  /-- `config_folder_path()?` (evaluated even when `data_dir` is set:
  `unwrap_or` takes its argument eagerly) -/
  configFolderRes : Except String String
  /-- `data_dir.as_path().exists()` after pushing the network name -/
  dataDirExists : Bool
  /-- `create_datadir(&data_dir)` (mode `0o700`, recursive) -/
  createDatadirRes : Except IOErr Unit
  /-- `fs::canonicalize(data_dir)?`, as a function of the path -/
  canonicalizeRes : String → Except String String
  /-- the filesystem state seen by `read_or_create_noise_key` -/
  noiseEnv : NoiseKeyEnv
  /-- `SocketAddr::from_str(&config.coordinator_host)?` -/
  parseCoordRes : Except String Nat

/-- The error cases `from_config` can return (boxed errors in the
source). -/
inductive FromConfigError
  | descriptorError (msg : String)
  | configFolderError (msg : String)
  | datadirError (e : IOErr)
  | canonicalizeError (msg : String)
  | keyError (e : KeyError)
  | addrParseError (msg : String)
deriving DecidableEq

/-- Outcome of `from_config`: a panic (failed `assert!`), an error, or the
built global state. -/
inductive FromConfigResult
  | panicked
  | err (e : FromConfigError)
  | ok (d : RevaultD)

/-- Whether a `from_config` outcome is an `Err`. -/
def FromConfigResult.isErr : FromConfigResult → Bool
  | .err _ => true
  | _ => false

/-- The `ok` payload of a `from_config` outcome, with a fallback state. -/
def FromConfigResult.getOkD (r : FromConfigResult) (dflt : RevaultD) :
    RevaultD :=
  match r with
  | .ok d => d
  | _ => dflt

/-- `pub fn from_config(config: Config) -> Result<RevaultD, ...>`: the
source's sequence of checks, external calls and field initializations (the
network name is appended to the data directory path; `lock_time` is fixed
at 0; the wallet fields start unset). -/
def RevaultD.from_config (cfg : Config) (env : ConfigEnv) :
    FromConfigResult :=
  let our_man_xpub := cfg.manager_config.map ManagerConfig.xpub
  let our_stk_xpub := cfg.stakeholder_config.map StakeholderConfig.xpub
  if !(our_man_xpub.isSome || our_stk_xpub.isSome) then .panicked
  else
    match env.depositDescRes with
    | .error e => .err (.descriptorError e)
    | .ok deposit_descriptor =>
      match env.unvaultDescRes with
      | .error e => .err (.descriptorError e)
      | .ok unvault_descriptor =>
        match env.cpfpDescRes with
        | .error e => .err (.descriptorError e)
        | .ok cpfp_descriptor =>
          let emergency_address :=
            cfg.stakeholder_config.map StakeholderConfig.emergency_address
          match env.configFolderRes with
          | .error e => .err (.configFolderError e)
          | .ok folder =>
            let data_dir := cfg.data_dir.getD folder
            let data_dir := data_dir ++ "/" ++ cfg.bitcoind_config.network
            match (if env.dataDirExists then Except.ok ()
                   else env.createDatadirRes) with
            | .error e => .err (.datadirError e)
            | .ok _ =>
              match env.canonicalizeRes data_dir with
              | .error e => .err (.canonicalizeError e)
              | .ok canonical_dir =>
                match read_or_create_noise_key env.noiseEnv with
                | .panicked => .panicked
                | .err e => .err (.keyError e)
                | .ok noise_secret =>
                  match env.parseCoordRes with
                  | .error e => .err (.addrParseError e)
                  | .ok coordinator_host =>
                    let cosigs := cfg.manager_config.map (fun mc =>
                      mc.cosigners.map (fun c => (c.host, c.noise_key)))
                    let daemon :=
                      match cfg.daemon with
                      | some false => false
                      | _ => true
                    .ok
                      { bitcoind_config := cfg.bitcoind_config
                        tip := none
                        our_stk_xpub := our_stk_xpub
                        our_man_xpub := our_man_xpub
                        deposit_descriptor := deposit_descriptor
                        unvault_descriptor := unvault_descriptor
                        cpfp_descriptor := cpfp_descriptor
                        emergency_address := emergency_address
                        current_unused_index := ChildNumber.fromU32 0
                        lock_time := 0
                        unvault_csv := cfg.unvault_csv
                        managers_pubkeys := cfg.managers_xpubs
                        noise_secret := noise_secret
                        coordinator_host := coordinator_host
                        coordinator_noisekey := cfg.coordinator_noise_key
                        coordinator_poll_interval :=
                          cfg.coordinator_poll_seconds
                        cosigs := cosigs
                        derivation_index_map := []
                        wallet_id := none
                        data_dir := canonical_dir
                        daemon := daemon }

/-- An environment in which every external call of `from_config`
succeeds (the secret file exists and holds 32 non-zero bytes). -/
def okEnv : ConfigEnv :=
  { depositDescRes := .ok 10
    unvaultDescRes := .ok 11
    cpfpDescRes := .ok 12
    configFolderRes := .ok "home"
    dataDirExists := true
    createDatadirRes := .ok ()
    canonicalizeRes := fun s => .ok s
    noiseEnv :=
      { fileExists := true
        genKey := List.replicate 32 7
        existsAtOpen := true
        createIo := .ok ()
        writeIo := .ok ()
        openRead := .ok (List.replicate 32 1) }
    parseCoordRes := .ok 20 }

/-- A configuration with neither a stakeholder nor a manager role key. -/
def noRoleConfig : Config :=
  { manager_config := none
    stakeholder_config := none
    managers_xpubs := []
    stakeholders_xpubs := []
    cosigners_keys := []
    unvault_csv := 6
    data_dir := some "dir"
    bitcoind_config := ⟨"regtest"⟩
    coordinator_host := "127.0.0.1:8383"
    coordinator_noise_key := List.replicate 32 2
    coordinator_poll_seconds := 30
    daemon := none }

/-- `noRoleConfig` with only a stakeholder role key configured. -/
def stkOnlyConfig : Config :=
  { noRoleConfig with stakeholder_config := some ⟨5, "emeraddr"⟩ }

/-- The state `from_config` builds from `stkOnlyConfig` under `okEnv`. -/
def stkOnlyState : RevaultD :=
  (RevaultD.from_config stkOnlyConfig okEnv).getOkD baseState

/-- Claim C5 counterexample: on a configuration with neither role key,
`from_config` hits the `assert!` and panics — it does not return an `Err`
result. -/
theorem from_config_no_role_not_err :
    RevaultD.from_config noRoleConfig okEnv = .panicked ∧
    (RevaultD.from_config noRoleConfig okEnv).isErr = false :=
  ⟨rfl, rfl⟩

/-- Claim C5 as amended: for every configuration in which neither a
stakeholder nor a manager xpub is present, `from_config` terminates
abnormally via the `assert!(our_man_xpub.is_some() ||
our_stk_xpub.is_some())` (a panic), rather than returning an `Err`
configuration error or succeeding. -/
theorem from_config_no_role_panics (cfg : Config) (env : ConfigEnv)
    (hm : cfg.manager_config = none) (hs : cfg.stakeholder_config = none) :
    RevaultD.from_config cfg env = .panicked := by
  unfold RevaultD.from_config
  rw [hm, hs]
  rfl

/-- Witness for the amended C5 on the concrete role-less configuration. -/
theorem from_config_no_role_panics_witness :
    RevaultD.from_config noRoleConfig okEnv = .panicked :=
  from_config_no_role_panics noRoleConfig okEnv rfl rfl

/-- Claim C10: for every context successfully built by `from_config`, the
emergency address is present exactly when a stakeholder role key was
configured, `is_stakeholder()` holds exactly when the stakeholder xpub was
configured, and `is_manager()` exactly when the manager xpub was
configured. -/
theorem from_config_roles (cfg : Config) (env : ConfigEnv) (d : RevaultD)
    (h : RevaultD.from_config cfg env = .ok d) :
    d.emergency_address.isSome = cfg.stakeholder_config.isSome ∧
    d.is_stakeholder = cfg.stakeholder_config.isSome ∧
    d.is_manager = cfg.manager_config.isSome := by
  simp only [RevaultD.from_config] at h
  repeat' split at h
  all_goals try exact FromConfigResult.noConfusion h
  all_goals
    injection h with hd
    subst hd
    cases cfg.stakeholder_config <;> cases cfg.manager_config <;>
      simp [RevaultD.is_stakeholder, RevaultD.is_manager]

/-- Witness for C10 on the stakeholder-only bootstrap. -/
theorem from_config_roles_witness :
    stkOnlyState.emergency_address.isSome =
      stkOnlyConfig.stakeholder_config.isSome ∧
    stkOnlyState.is_stakeholder = stkOnlyConfig.stakeholder_config.isSome ∧
    stkOnlyState.is_manager = stkOnlyConfig.manager_config.isSome :=
  from_config_roles stkOnlyConfig okEnv stkOnlyState rfl

/-- `baseState` with the raw unused index at the `u32` maximum `2^32 - 1`
(the hardened child number with index `2^31 - 1`). -/
def wrapState : RevaultD :=
  { baseState with current_unused_index := ChildNumber.hardened (2 ^ 31 - 1) }

/-- Claim C9 counterexample: at the state whose raw unused index is
`2^32 - 1`, the `u32` sum `raw_index + gap_limit()` wraps, and the derived
child index is 99 — not `current_unused_index + 100`. -/
theorem gap_index_wraps_at_u32_max :
    wrapState.rawIndex = 2 ^ 32 - 1 ∧
    wrapState.last_gap_child.toU32 = 99 ∧
    wrapState.last_gap_child.toU32 ≠ wrapState.rawIndex + wrapState.gap_limit := by
  refine ⟨by decide, by decide, by decide⟩
